import Mathlib

/-!
Verification of the Transportes Manolo backend (FastAPI service in `main.py`,
models in `models.py`, schemas in `schemas.py`).

The embedding models:
  * the record store (SQLAlchemy tables `mensajes` and `vehiculos`) as lists
    of records inside a `Store` structure;
  * each HTTP endpoint as a pure function from its request data and the
    current store to a result structure carrying the HTTP response, the store
    after the call, and the observable side effects (dispatch attempts);
  * the SMTP dispatcher `enviar_correo_cotizacion` as a function of the
    process configuration (the `GMAIL_USER` / `GMAIL_APP_PASSWORD`
    environment variables) and a `TransportOutcome` parameter standing for
    the behaviour of the external SMTP transport on this call.  Python
    exceptions raised by the transport are reified as an `Except` value;
    the `try/except` ladder of the source is the function `handle_exc`,
    and a dispatcher result of `none` would mean an exception escaped
    to the caller.
  * Python dict access: the dict `datos` built by `agregar_cotizacion`
    carries `comentario` and `foto_url` as `Option (Option String)`:
    `none` is an absent key, `some none` a key present with value `None`,
    `some (some s)` a key present with a string value.  `dict.get` with a
    default and Python truthiness are modelled by `py_get`, `py_truthy`.
-/

namespace TransportesManolo

/-- Python truthiness of an optional string: `None` and `""` are falsy. -/
def py_truthy : Option String → Bool
  | none => false
  | some s => !(s == "")

/-- `dict.get(key)` on a field stored as `Option (Option String)`:
a missing key and a key holding `None` both yield `none`. -/
def py_get : Option (Option String) → Option String
  | none => none
  | some v => v

/-- Rendering of a Python value in an f-string: `None` prints as `"None"`. -/
def py_str : Option String → String
  | none => "None"
  | some s => s

/-- `vehiculos` table row (`models.Vehiculo`). -/
structure Vehiculo where
  id : Int
  marca : String
  modelo : String
  placa : String
  anio : Int
  tipo : String
  capacidad : String
  observaciones : Option String
  foto : Option String
  deriving Repr, DecidableEq

/-- `mensajes` table row (`models.Mensaje`). -/
structure Mensaje where
  id : Int
  nombre : String
  correo : String
  telefono : Option String
  mensaje : String
  deriving Repr, DecidableEq

/-- The record store: both tables of the database. -/
structure Store where
  mensajes : List Mensaje
  vehiculos : List Vehiculo
  deriving Repr, DecidableEq

/-- `db.query(models.Vehiculo).filter(models.Vehiculo.id == vid).first()`. -/
def queryVehiculoById (vs : List Vehiculo) (vid : Int) : Option Vehiculo :=
  vs.find? (fun v => v.id == vid)

/-- An `HTTPException(status_code, detail)` raised by an endpoint. -/
structure HttpError where
  status_code : Nat
  detail : String
  deriving Repr, DecidableEq

/-- Request body of `POST /cotizaciones/agregar/` (`CotizacionRequest`). -/
structure CotizacionRequest where
  vehiculo_id : Int
  nombre : String
  telefono : String
  fecha : String
  comentario : Option String
  deriving Repr, DecidableEq

/-- The dict `datos` handed to `enviar_correo_cotizacion`: the quote request
fields merged with the denormalized vehicle fields.  `comentario` and
`foto_url` keep the present-with-None / missing-key distinction. -/
structure DatosCorreo where
  nombre : String
  telefono : String
  fecha : String
  comentario : Option (Option String)
  marca : String
  modelo : String
  anio : Int
  placa : String
  tipo : String
  vehiculo_id : Int
  foto_url : Option (Option String)
  deriving Repr, DecidableEq

/-- `datos_correo = cotizacion.dict(); datos_correo.update({...})` in
`agregar_cotizacion`: every key is present (a `pydantic` `.dict()` includes
fields whose value is `None`). -/
def buildDatosCorreo (c : CotizacionRequest) (v : Vehiculo) : DatosCorreo :=
  { nombre := c.nombre
    telefono := c.telefono
    fecha := c.fecha
    comentario := some c.comentario
    marca := v.marca
    modelo := v.modelo
    anio := v.anio
    placa := v.placa
    tipo := v.tipo
    vehiculo_id := c.vehiculo_id
    foto_url := some v.foto }

/-- `datos.get('comentario', '—')` rendered inside the HTML f-string:
the default `—` applies only when the key is missing; a key present with
`None` renders as the string `None`. -/
def render_comentario : Option (Option String) → String
  | none => "—"
  | some v => py_str v

/-- The `foto_html` conditional expression of `enviar_correo_cotizacion`:
an `<img>` tag when `datos.get("foto_url")` is truthy, otherwise the fixed
placeholder paragraph. -/
def foto_html (fu : Option (Option String)) : String :=
  match py_get fu with
  | some s =>
      if s == "" then "<p style=\x27color:#888;\x27>Sin foto disponible</p>"
      else "<img src=\"" ++ s ++ "\" alt=\"Foto del vehículo\" style=\"max-width:100%;border-radius:8px;margin-top:10px;\" />"
  | none => "<p style=\x27color:#888;\x27>Sin foto disponible</p>"

/-- The HTML body built by `enviar_correo_cotizacion` (the `html` f-string),
with each interpolation slot filled from `datos`. -/
def html_correo (datos : DatosCorreo) : String :=
  "\n        <div style=\"font-family: Arial, sans-serif; max-width:650px; margin:20px auto; border:1px solid #e0e0e0; border-radius:12px; overflow:hidden; box-shadow:0 4px 20px rgba(0,0,0,0.1); background:white;\">\n            <div style=\"background: linear-gradient(120deg, #1976D2, #0D47A1); color:white; padding:24px; text-align:center;\">\n                <h2>Nueva Solicitud de Cotización</h2>\n            </div>\n            <div style=\"padding:24px;\">\n                <h3 style=\"color:#1976D2;\">👤 Datos del Cliente</h3>\n                <p><strong>Nombre:</strong> "
    ++ datos.nombre
    ++ "</p>\n                <p><strong>Teléfono:</strong> "
    ++ datos.telefono
    ++ "</p>\n                <p><strong>Fecha de servicio:</strong> "
    ++ datos.fecha
    ++ "</p>\n                <p><strong>Comentario:</strong> "
    ++ render_comentario datos.comentario
    ++ "</p>\n            </div>\n            <div style=\"padding:24px; background:#f5f9ff;\">\n                <h3>🚛 Información del Vehículo</h3>\n                <p><strong>Marca:</strong> "
    ++ datos.marca
    ++ "</p>\n                <p><strong>Modelo:</strong> "
    ++ datos.modelo
    ++ "</p>\n                <p><strong>Año:</strong> "
    ++ toString datos.anio
    ++ "</p>\n                <p><strong>Placa:</strong> "
    ++ datos.placa
    ++ "</p>\n                <p><strong>Tipo:</strong> "
    ++ datos.tipo
    ++ "</p>\n                <h4>📸 Foto del vehículo:</h4>\n                "
    ++ foto_html datos.foto_url
    ++ "\n            </div>\n            <div style=\"text-align:center; padding:16px; background:#e3f2fd;\">\n                ID del vehículo: <strong>"
    ++ toString datos.vehiculo_id
    ++ "</strong>\n            </div>\n        </div>\n        "

/-- The value substituted in the rendering for each `NotificationPayload`
field, in source order: nombre, telefono, fecha, comentario, marca, modelo,
anio, placa, tipo, foto_url, vehiculo_id. -/
def rendered_slots (datos : DatosCorreo) : List String :=
  [datos.nombre, datos.telefono, datos.fecha,
   render_comentario datos.comentario,
   datos.marca, datos.modelo, toString datos.anio, datos.placa, datos.tipo,
   foto_html datos.foto_url, toString datos.vehiculo_id]

/-- The MIME message built at lines 212-215 of `main.py`. -/
structure EmailMessage where
  from_addr : String
  to_addr : String
  subject : String
  body : String
  deriving Repr, DecidableEq

/-- `msg = MIMEMultipart(...); msg["From"] = GMAIL_USER; msg["To"] = GMAIL_USER;
msg["Subject"] = f"📩 Nueva cotización: ..."; msg.attach(MIMEText(html, ...))`. -/
def build_msg (gmail_user : String) (datos : DatosCorreo) : EmailMessage :=
  { from_addr := gmail_user
    to_addr := gmail_user
    subject := "📩 Nueva cotización: " ++ datos.nombre
    body := html_correo datos }

/-- A completed `server.sendmail(from, to, msg.as_string())` call:
the message together with its envelope sender and recipient. -/
structure SentEmail where
  headers : EmailMessage
  envelope_from : String
  envelope_to : String
  deriving Repr, DecidableEq

/-- The Python exceptions the `try/except` ladder of
`enviar_correo_cotizacion` distinguishes. -/
inductive SmtpExc where
  | authenticationError
  | socketTimeout
  | smtpException
  | otherException
  deriving Repr, DecidableEq

/-- Behaviour of the external SMTP transport on one call: delivery, or a
failure at some stage of connect / starttls / login / send. -/
inductive TransportOutcome where
  | delivered
  | connectTimeout
  | authRejected
  | smtpFailure
  | unexpectedError
  deriving Repr, DecidableEq

/-- The `with smtplib.SMTP(...)` block: connect, `starttls`, `login`,
`sendmail(GMAIL_USER, GMAIL_USER, msg.as_string())`.  Returns the completed
send or raises the exception corresponding to the transport outcome. -/
def smtp_session (outcome : TransportOutcome) (gmail_user : String)
    (msg : EmailMessage) : Except SmtpExc SentEmail :=
  match outcome with
  | .delivered => .ok { headers := msg, envelope_from := gmail_user, envelope_to := gmail_user }
  | .connectTimeout => .error .socketTimeout
  | .authRejected => .error .authenticationError
  | .smtpFailure => .error .smtpException
  | .unexpectedError => .error .otherException

/-- The `except` ladder of `enviar_correo_cotizacion`: every branch logs and
returns `False`.  A result of `none` would mean the exception is not caught
and propagates to the caller; no branch does that. -/
def handle_exc : SmtpExc → Option Bool
  | .authenticationError => some false
  | .socketTimeout => some false
  | .smtpException => some false
  | .otherException => some false

/-- Process configuration read from the environment at import time. -/
structure Config where
  gmail_user : Option String
  gmail_app_password : Option String
  deriving Repr, DecidableEq

/-- Observable outcome of one call to `enviar_correo_cotizacion`:
the returned value (`none` would mean an escaped exception), the number of
transport connections opened, and the send completed on the transport,
if any. -/
structure DispatchResult where
  result : Option Bool
  connections : Nat
  sent : Option SentEmail
  deriving Repr, DecidableEq

/-- `enviar_correo_cotizacion(datos)` of `main.py`: returns `False` without
touching the transport when `GMAIL_USER` or `GMAIL_APP_PASSWORD` is falsy,
otherwise builds the message, opens one SMTP connection and reports the
outcome, catching every exception and returning `False` for it. -/
def enviar_correo_cotizacion (cfg : Config) (outcome : TransportOutcome)
    (datos : DatosCorreo) : DispatchResult :=
  if !(py_truthy cfg.gmail_user) || !(py_truthy cfg.gmail_app_password) then
    { result := some false, connections := 0, sent := none }
  else
    match cfg.gmail_user with
    | none => { result := some false, connections := 0, sent := none }
    | some u =>
        let msg := build_msg u datos
        match smtp_session outcome u msg with
        | .ok sent => { result := some true, connections := 1, sent := some sent }
        | .error e => { result := handle_exc e, connections := 1, sent := none }

/-- Success body of `POST /cotizaciones/agregar/`. -/
structure QuoteResponse where
  mensaje : String
  status : String
  deriving Repr, DecidableEq

/-- Observable outcome of one call to `agregar_cotizacion`. -/
structure CotizacionResult where
  response : Except HttpError QuoteResponse
  store_after : Store
  dispatch : Option DispatchResult
  deriving Repr

/-- `agregar_cotizacion` (`POST /cotizaciones/agregar/`): resolve the
vehicle or raise 404; otherwise merge the request with the vehicle fields,
invoke the dispatcher once ignoring its result, and answer success. -/
def agregar_cotizacion (cfg : Config) (outcome : TransportOutcome)
    (store : Store) (c : CotizacionRequest) : CotizacionResult :=
  match queryVehiculoById store.vehiculos c.vehiculo_id with
  | none =>
      { response := .error { status_code := 404, detail := "Vehículo no encontrado" }
        store_after := store
        dispatch := none }
  | some v =>
      let datos := buildDatosCorreo c v
      let d := enviar_correo_cotizacion cfg outcome datos
      { response := .ok { mensaje := "✅ Cotización enviada correctamente", status := "success" }
        store_after := store
        dispatch := some d }

/-- Transport connections opened while serving one quote request. -/
def cotizacion_connections (r : CotizacionResult) : Nat :=
  match r.dispatch with
  | none => 0
  | some d => d.connections

/-- Form fields of `POST /vehiculos/agregar/`. -/
structure VehiculoForm where
  marca : String
  modelo : String
  placa : String
  anio : Int
  tipo : String
  capacidad : String
  observaciones : Option String
  deriving Repr, DecidableEq

/-- Behaviour of `cloudinary.uploader.upload` on the supplied photo:
either it returns a result dict, whose `secure_url` entry may be absent,
or it raises, in which case the endpoint logs and keeps `foto_url = None`. -/
inductive UploadOutcome where
  | uploaded (secure_url : Option String)
  | uploadError
  deriving Repr, DecidableEq

/-- Response body of `POST /vehiculos/agregar/`. -/
structure VehiculoAddResponse where
  mensaje : String
  id : Int
  foto_url : Option String
  deriving Repr, DecidableEq

/-- Observable outcome of one call to `agregar_vehiculo`.  `newId` stands
for the primary-key value the database assigns on `commit`/`refresh`. -/
structure VehiculoAddResult where
  response : VehiculoAddResponse
  store_after : Store
  deriving Repr, DecidableEq

/-- `agregar_vehiculo` (`POST /vehiculos/agregar/`): optionally upload the
photo (keeping `foto_url = None` when no photo is supplied, when the upload
raises, or when the result has no `secure_url`), then insert the row and
answer with the new id. -/
def agregar_vehiculo (form : VehiculoForm) (foto : Option UploadOutcome)
    (newId : Int) (store : Store) : VehiculoAddResult :=
  let foto_url : Option String :=
    match foto with
    | none => none
    | some (.uploaded u) => u
    | some .uploadError => none
  let nuevo : Vehiculo :=
    { id := newId
      marca := form.marca
      modelo := form.modelo
      placa := form.placa
      anio := form.anio
      tipo := form.tipo
      capacidad := form.capacidad
      observaciones := form.observaciones
      foto := foto_url }
  { response := { mensaje := "✅ Vehículo agregado correctamente", id := newId, foto_url := foto_url }
    store_after := { store with vehiculos := store.vehiculos ++ [nuevo] } }

/-- Success body of `DELETE /vehiculos/eliminar/{id}`. -/
structure VehiculoDeleteResponse where
  mensaje : String
  id : Int
  deriving Repr, DecidableEq

/-- Observable outcome of one call to `eliminar_vehiculo`. -/
structure VehiculoDeleteResult where
  response : Except HttpError VehiculoDeleteResponse
  store_after : Store
  deriving Repr

/-- `eliminar_vehiculo` (`DELETE /vehiculos/eliminar/{vehiculo_id}`):
look the row up, raise 404 if absent, otherwise delete that row. -/
def eliminar_vehiculo (store : Store) (vid : Int) : VehiculoDeleteResult :=
  match queryVehiculoById store.vehiculos vid with
  | none =>
      { response := .error { status_code := 404, detail := "Vehículo no encontrado" }
        store_after := store }
  | some _ =>
      { response := .ok { mensaje := "✅ Vehículo eliminado correctamente", id := vid }
        store_after := { store with vehiculos := store.vehiculos.eraseP (fun v => v.id == vid) } }

/-- `listar_vehiculos` (`GET /vehiculos/`). -/
def listar_vehiculos (store : Store) : List Vehiculo :=
  store.vehiculos

/-- Request body of `POST /contacto/` (`schemas.MensajeCreate`). -/
structure MensajeCreate where
  nombre : String
  correo : String
  telefono : Option String
  mensaje : String
  deriving Repr, DecidableEq

/-- `enviar_mensaje` (`POST /contacto/`): insert the message row. -/
def enviar_mensaje (m : MensajeCreate) (newId : Int) (store : Store) : Store :=
  { store with mensajes := store.mensajes ++
      [{ id := newId, nombre := m.nombre, correo := m.correo,
         telefono := m.telefono, mensaje := m.mensaje }] }

/-! Concrete sample data (the scenario of §8 of the design notes:
a Toyota Hiace van and the `PRUEBA TEST` quote request). -/

/-- Sample vehicle row, stored without a photo. -/
def vEx : Vehiculo :=
  { id := 1, marca := "Toyota", modelo := "Hiace", placa := "TEST-123",
    anio := 2023, tipo := "Van", capacidad := "12",
    observaciones := none, foto := none }

/-- Sample store holding only `vEx`. -/
def storeEx : Store :=
  { mensajes := [], vehiculos := [vEx] }

/-- Sample quote request for `vEx`, with no comment. -/
def cEx : CotizacionRequest :=
  { vehiculo_id := 1, nombre := "PRUEBA TEST", telefono := "1234567890",
    fecha := "2025-10-17", comentario := none }

/-- Sample quote request referencing an id absent from `storeEx`. -/
def cNoVeh : CotizacionRequest :=
  { cEx with vehiculo_id := 99 }

/-- Sample configuration with both credentials present. -/
def cfgEx : Config :=
  { gmail_user := some "operador@gmail.com",
    gmail_app_password := some "clave-de-aplicacion" }

/-- Sample configuration with `GMAIL_USER` unset. -/
def cfgSinCredenciales : Config :=
  { gmail_user := none, gmail_app_password := some "clave-de-aplicacion" }

/-- The dict built for the sample quote request and vehicle. -/
def datosEx : DatosCorreo :=
  buildDatosCorreo cEx vEx

/-- The send completed by the transport for `datosEx` under `cfgEx`. -/
def sentEx : SentEmail :=
  { headers := build_msg "operador@gmail.com" datosEx,
    envelope_from := "operador@gmail.com",
    envelope_to := "operador@gmail.com" }

/-- Sample add-vehicle form. -/
def formEx : VehiculoForm :=
  { marca := "Toyota", modelo := "Hiace", placa := "TEST-123", anio := 2023,
    tipo := "Van", capacidad := "12", observaciones := none }

/-! Helper lemmas about the list-backed store. -/

/-- `eliminar_vehiculo` on an id absent from the store. -/
theorem eliminar_vehiculo_of_none {store : Store} {vid : Int}
    (h : queryVehiculoById store.vehiculos vid = none) :
    eliminar_vehiculo store vid =
      { response := .error { status_code := 404, detail := "Vehículo no encontrado" }
        store_after := store } := by
  unfold eliminar_vehiculo
  rw [h]

/-- After erasing the row with id `vid` from a list whose ids are pairwise
distinct, no row with id `vid` remains. -/
theorem find?_eraseP_eq_none (vid : Int) (vs : List Vehiculo)
    (h : vs.Pairwise (fun a b => a.id ≠ b.id)) :
    (vs.eraseP (fun v => v.id == vid)).find? (fun v => v.id == vid) = none := by
  induction vs with
  | nil => rfl
  | cons a t ih =>
    rcases List.pairwise_cons.mp h with ⟨ha, ht⟩
    by_cases hav : a.id = vid
    · have hb : (a.id == vid) = true := by simpa using hav
      simp only [List.eraseP_cons, hb, cond_true]
      refine List.find?_eq_none.mpr ?_
      intro x hx
      have hne : a.id ≠ x.id := ha x hx
      simp only [beq_iff_eq]
      omega
    · have hb : (a.id == vid) = false := by simpa using hav
      simp only [List.eraseP_cons, List.find?_cons, hb, cond_false]
      exact ih ht

/-- The dispatcher result is fully characterized: it always returns a
boolean, and that boolean is `true` exactly when both credentials are
truthy and the transport delivered. -/
theorem enviar_correo_result_eq (cfg : Config) (o : TransportOutcome)
    (datos : DatosCorreo) :
    (enviar_correo_cotizacion cfg o datos).result =
      some (py_truthy cfg.gmail_user && py_truthy cfg.gmail_app_password
              && (o == TransportOutcome.delivered)) := by
  obtain ⟨gu, gp⟩ := cfg
  cases gu with
  | none => simp [enviar_correo_cotizacion, py_truthy]
  | some u =>
    cases gp with
    | none => simp [enviar_correo_cotizacion, py_truthy]
    | some p =>
      by_cases hu0 : u = ""
      · simp [enviar_correo_cotizacion, py_truthy, hu0]
      · by_cases hp0 : p = ""
        · simp [enviar_correo_cotizacion, py_truthy, hu0, hp0]
        · cases o <;>
            simp [enviar_correo_cotizacion, py_truthy, smtp_session, handle_exc, hu0, hp0]

/-! Claim theorems. -/

/-- Claim C1: for every quote request whose `vehiculo_id` refers to a
vehicle present in the store, `POST /cotizaciones/agregar/` answers the
fixed success body, and the answer is the same for every configuration and
every transport outcome. -/
theorem C1_quote_success_regardless_of_dispatch
    (store : Store) (c : CotizacionRequest)
    (h : (queryVehiculoById store.vehiculos c.vehiculo_id).isSome = true)
    (cfg cfg2 : Config) (o o2 : TransportOutcome) :
    (agregar_cotizacion cfg o store c).response =
      .ok { mensaje := "✅ Cotización enviada correctamente", status := "success" } ∧
    (agregar_cotizacion cfg o store c).response =
      (agregar_cotizacion cfg2 o2 store c).response := by
  rcases Option.isSome_iff_exists.mp h with ⟨v, hv⟩
  constructor <;> simp [agregar_cotizacion, hv]

/-- Witness for C1 at the sample store, request, and two dispatch
behaviours (delivered under full credentials, SMTP failure without
credentials). -/
theorem C1_witness :
    (queryVehiculoById storeEx.vehiculos cEx.vehiculo_id).isSome = true ∧
    ((agregar_cotizacion cfgEx .delivered storeEx cEx).response =
        .ok { mensaje := "✅ Cotización enviada correctamente", status := "success" } ∧
      (agregar_cotizacion cfgEx .delivered storeEx cEx).response =
        (agregar_cotizacion cfgSinCredenciales .smtpFailure storeEx cEx).response) :=
  ⟨rfl, C1_quote_success_regardless_of_dispatch storeEx cEx rfl
          cfgEx cfgSinCredenciales .delivered .smtpFailure⟩

/-- Claim C2: for every vehicle id not present in the store,
`POST /cotizaciones/agregar/` answers 404, the dispatcher is never
invoked, no transport connection is opened, and the store is unchanged. -/
theorem C2_not_found_404_no_dispatch
    (cfg : Config) (o : TransportOutcome) (store : Store) (c : CotizacionRequest)
    (h : queryVehiculoById store.vehiculos c.vehiculo_id = none) :
    (agregar_cotizacion cfg o store c).response =
      .error { status_code := 404, detail := "Vehículo no encontrado" } ∧
    (agregar_cotizacion cfg o store c).dispatch = none ∧
    cotizacion_connections (agregar_cotizacion cfg o store c) = 0 ∧
    (agregar_cotizacion cfg o store c).store_after = store := by
  simp [agregar_cotizacion, cotizacion_connections, h]

/-- Witness for C2 at the sample store and an id (99) it does not hold. -/
theorem C2_witness :
    queryVehiculoById storeEx.vehiculos cNoVeh.vehiculo_id = none ∧
    ((agregar_cotizacion cfgEx .delivered storeEx cNoVeh).response =
        .error { status_code := 404, detail := "Vehículo no encontrado" } ∧
      (agregar_cotizacion cfgEx .delivered storeEx cNoVeh).dispatch = none ∧
      cotizacion_connections (agregar_cotizacion cfgEx .delivered storeEx cNoVeh) = 0 ∧
      (agregar_cotizacion cfgEx .delivered storeEx cNoVeh).store_after = storeEx) :=
  ⟨rfl, C2_not_found_404_no_dispatch cfgEx .delivered storeEx cNoVeh rfl⟩

/-- Claim C3, evaluated at the failing input: a quote request with no
comment (`comentario = None`) for a vehicle with no photo.  The photo slot
does receive the fixed placeholder paragraph, but the comment slot receives
the string `None` — the rendering of the absent value itself — because
`datos.get('comentario', '—')` only falls back to the placeholder `—` when
the key is missing, and `cotizacion.dict()` always supplies the key. -/
theorem C3_absent_comment_renders_None :
    render_comentario (buildDatosCorreo cEx vEx).comentario = "None" ∧
    render_comentario (buildDatosCorreo cEx vEx).comentario ≠ "—" ∧
    render_comentario (some (some "ok")) = "ok" ∧
    foto_html (buildDatosCorreo cEx vEx).foto_url =
      "<p style=\x27color:#888;\x27>Sin foto disponible</p>" :=
  ⟨rfl, by decide, rfl, rfl⟩

/-- Claim C4: whether no photo is supplied or the upload raises, the
vehicle row is still inserted, the response carries the new id with a null
`foto_url`, and the stored row has `foto = none`. -/
theorem C4_vehicle_created_without_photo
    (form : VehiculoForm) (foto : Option UploadOutcome) (newId : Int) (store : Store)
    (hfresh : ∀ w ∈ store.vehiculos, w.id ≠ newId)
    (hfoto : foto = none ∨ foto = some .uploadError) :
    (agregar_vehiculo form foto newId store).response.foto_url = none ∧
    (agregar_vehiculo form foto newId store).response.id = newId ∧
    ∃ v, queryVehiculoById (agregar_vehiculo form foto newId store).store_after.vehiculos newId
          = some v ∧ v.foto = none := by
  have hnone : store.vehiculos.find? (fun v => v.id == newId) = none :=
    List.find?_eq_none.mpr (fun w hw => by simp [hfresh w hw])
  rcases hfoto with h | h <;> subst h <;>
    refine ⟨rfl, rfl,
      ⟨{ id := newId, marca := form.marca, modelo := form.modelo, placa := form.placa,
         anio := form.anio, tipo := form.tipo, capacidad := form.capacidad,
         observaciones := form.observaciones, foto := none }, ?_, rfl⟩⟩ <;>
    simp [agregar_vehiculo, queryVehiculoById, List.find?_append, hnone]

/-- Witness for C4: adding the sample form with no photo to the sample
store under the fresh id 2. -/
theorem C4_witness :
    (∀ w ∈ storeEx.vehiculos, w.id ≠ 2) ∧
    ((agregar_vehiculo formEx none 2 storeEx).response.foto_url = none ∧
      (agregar_vehiculo formEx none 2 storeEx).response.id = 2 ∧
      ∃ v, queryVehiculoById (agregar_vehiculo formEx none 2 storeEx).store_after.vehiculos 2
            = some v ∧ v.foto = none) :=
  ⟨by decide, C4_vehicle_created_without_photo formEx none 2 storeEx (by decide) (Or.inl rfl)⟩

/-- Claim C5: deleting an absent id answers 404 and leaves the store
unchanged; deleting a present id (in a store with pairwise-distinct ids,
as the primary key guarantees) removes the row, so a subsequent lookup of
that id finds nothing and a second delete answers 404. -/
theorem C5_delete_semantics (store : Store) (vid : Int)
    (hids : store.vehiculos.Pairwise (fun a b => a.id ≠ b.id)) :
    (queryVehiculoById store.vehiculos vid = none →
        (eliminar_vehiculo store vid).response =
          .error { status_code := 404, detail := "Vehículo no encontrado" } ∧
        (eliminar_vehiculo store vid).store_after = store) ∧
    (∀ v, queryVehiculoById store.vehiculos vid = some v →
        (eliminar_vehiculo store vid).response =
          .ok { mensaje := "✅ Vehículo eliminado correctamente", id := vid } ∧
        queryVehiculoById (eliminar_vehiculo store vid).store_after.vehiculos vid = none ∧
        (eliminar_vehiculo (eliminar_vehiculo store vid).store_after vid).response =
          .error { status_code := 404, detail := "Vehículo no encontrado" }) := by
  constructor
  · intro h
    rw [eliminar_vehiculo_of_none h]
    exact ⟨rfl, rfl⟩
  · intro v hv
    have hafter :
        queryVehiculoById (eliminar_vehiculo store vid).store_after.vehiculos vid = none := by
      simp only [eliminar_vehiculo, hv]
      exact find?_eraseP_eq_none vid store.vehiculos hids
    refine ⟨?_, hafter, ?_⟩
    · simp [eliminar_vehiculo, hv]
    · rw [eliminar_vehiculo_of_none hafter]

/-- Witness for C5: deleting id 1 from the sample store, then looking it
up and deleting it again. -/
theorem C5_witness :
    storeEx.vehiculos.Pairwise (fun a b => a.id ≠ b.id) ∧
    queryVehiculoById storeEx.vehiculos 1 = some vEx ∧
    ((eliminar_vehiculo storeEx 1).response =
        .ok { mensaje := "✅ Vehículo eliminado correctamente", id := 1 } ∧
      queryVehiculoById (eliminar_vehiculo storeEx 1).store_after.vehiculos 1 = none ∧
      (eliminar_vehiculo (eliminar_vehiculo storeEx 1).store_after 1).response =
        .error { status_code := 404, detail := "Vehículo no encontrado" }) :=
  ⟨by simp [storeEx], rfl, (C5_delete_semantics storeEx 1 (by simp [storeEx])).2 vEx rfl⟩

/-- Claim C6: when `GMAIL_USER` or `GMAIL_APP_PASSWORD` is falsy the
dispatcher returns `False`, opens no transport connection, and completes no
send. -/
theorem C6_missing_creds_no_transport (cfg : Config) (o : TransportOutcome)
    (datos : DatosCorreo)
    (h : py_truthy cfg.gmail_user = false ∨ py_truthy cfg.gmail_app_password = false) :
    (enviar_correo_cotizacion cfg o datos).result = some false ∧
    (enviar_correo_cotizacion cfg o datos).connections = 0 ∧
    (enviar_correo_cotizacion cfg o datos).sent = none := by
  unfold enviar_correo_cotizacion
  rcases h with h | h <;> simp [h]

/-- Witness for C6 at the configuration with `GMAIL_USER` unset and a
transport that would deliver. -/
theorem C6_witness :
    py_truthy cfgSinCredenciales.gmail_user = false ∧
    ((enviar_correo_cotizacion cfgSinCredenciales .delivered datosEx).result = some false ∧
      (enviar_correo_cotizacion cfgSinCredenciales .delivered datosEx).connections = 0 ∧
      (enviar_correo_cotizacion cfgSinCredenciales .delivered datosEx).sent = none) :=
  ⟨rfl, C6_missing_creds_no_transport cfgSinCredenciales .delivered datosEx (Or.inl rfl)⟩

/-- Claim C7: the dispatcher opens at most one transport connection on any
input, and serving one quote request opens at most one transport
connection — no failure is retried. -/
theorem C7_at_most_one_dispatch_attempt (cfg : Config) (o : TransportOutcome)
    (store : Store) (c : CotizacionRequest) :
    (∀ datos, (enviar_correo_cotizacion cfg o datos).connections ≤ 1) ∧
    cotizacion_connections (agregar_cotizacion cfg o store c) ≤ 1 := by
  have hd : ∀ datos, (enviar_correo_cotizacion cfg o datos).connections ≤ 1 := by
    intro datos
    obtain ⟨gu, gp⟩ := cfg
    cases gu with
    | none => simp [enviar_correo_cotizacion, py_truthy]
    | some u =>
      cases gp with
      | none => simp [enviar_correo_cotizacion, py_truthy]
      | some p =>
        by_cases hu0 : u = ""
        · simp [enviar_correo_cotizacion, py_truthy, hu0]
        · by_cases hp0 : p = ""
          · simp [enviar_correo_cotizacion, py_truthy, hu0, hp0]
          · cases o <;>
              simp [enviar_correo_cotizacion, py_truthy, smtp_session, handle_exc, hu0, hp0]
  refine ⟨hd, ?_⟩
  cases hq : queryVehiculoById store.vehiculos c.vehiculo_id with
  | none => simp [agregar_cotizacion, cotizacion_connections, hq]
  | some v =>
    simpa [agregar_cotizacion, cotizacion_connections, hq] using
      hd (buildDatosCorreo c v)

/-- Claim C8: `POST /cotizaciones/agregar/` never writes to the record
store — the store after the call equals the store before it, on every
input. -/
theorem C8_quote_endpoint_preserves_store (cfg : Config) (o : TransportOutcome)
    (store : Store) (c : CotizacionRequest) :
    (agregar_cotizacion cfg o store c).store_after = store := by
  unfold agregar_cotizacion
  split <;> rfl

/-- Claim C9: the dispatcher is total — on every configuration, transport
outcome and payload it returns a boolean (never an escaped exception), and
that boolean is `True` exactly on delivery. -/
theorem C9_dispatcher_total (cfg : Config) (o : TransportOutcome)
    (datos : DatosCorreo) :
    (enviar_correo_cotizacion cfg o datos).result ≠ none ∧
    ((enviar_correo_cotizacion cfg o datos).result = some true ↔
      (py_truthy cfg.gmail_user = true ∧ py_truthy cfg.gmail_app_password = true ∧
        o = .delivered)) := by
  rw [enviar_correo_result_eq]
  constructor
  · simp
  · simp [Bool.and_eq_true, and_assoc]

/-- Claim C10: every send completed on the transport uses the configured
`GMAIL_USER` as From header, To header, envelope sender and envelope
recipient. -/
theorem C10_recipient_equals_sender (cfg : Config) (o : TransportOutcome)
    (datos : DatosCorreo) (s : SentEmail)
    (h : (enviar_correo_cotizacion cfg o datos).sent = some s) :
    s.headers.to_addr = s.headers.from_addr ∧
    s.envelope_from = s.headers.from_addr ∧
    s.envelope_to = s.headers.from_addr ∧
    cfg.gmail_user = some s.headers.from_addr := by
  obtain ⟨gu, gp⟩ := cfg
  cases gu with
  | none => simp [enviar_correo_cotizacion, py_truthy] at h
  | some u =>
    cases gp with
    | none => simp [enviar_correo_cotizacion, py_truthy] at h
    | some p =>
      by_cases hu0 : u = ""
      · simp [enviar_correo_cotizacion, py_truthy, hu0] at h
      · by_cases hp0 : p = ""
        · simp [enviar_correo_cotizacion, py_truthy, hu0, hp0] at h
        · cases o with
          | delivered =>
            simp [enviar_correo_cotizacion, py_truthy, smtp_session, hu0, hp0] at h
            subst h
            simp [build_msg]
          | connectTimeout =>
            simp [enviar_correo_cotizacion, py_truthy, smtp_session, hu0, hp0] at h
          | authRejected =>
            simp [enviar_correo_cotizacion, py_truthy, smtp_session, hu0, hp0] at h
          | smtpFailure =>
            simp [enviar_correo_cotizacion, py_truthy, smtp_session, hu0, hp0] at h
          | unexpectedError =>
            simp [enviar_correo_cotizacion, py_truthy, smtp_session, hu0, hp0] at h

/-- Witness for C10 at the sample configuration, payload, and a delivering
transport. -/
theorem C10_witness :
    (enviar_correo_cotizacion cfgEx .delivered datosEx).sent = some sentEx ∧
    (sentEx.headers.to_addr = sentEx.headers.from_addr ∧
      sentEx.envelope_from = sentEx.headers.from_addr ∧
      sentEx.envelope_to = sentEx.headers.from_addr ∧
      cfgEx.gmail_user = some sentEx.headers.from_addr) :=
  ⟨rfl, C10_recipient_equals_sender cfgEx .delivered datosEx sentEx rfl⟩

end TransportesManolo
